import Mathlib

/-!
Verification development for the sqlpp11 PostgreSQL connector core:
the result cursor of src/bind_result.cpp and the exception taxonomy of
include/sqlpp11/postgresql/exception.h.

The libpq result accessors (PQntuples, PQnfields, PQgetvalue, PQgetisnull,
PQgetlength) are modelled as a record of total functions over an abstract
materialized result buffer.  Machine integers are modelled as Nat / Int with
explicit bounds where the source semantics depends on them; `double` values
are modelled as exact rationals with the C++11 out-of-range extraction
failure (clamping to the most positive / most negative representable double)
modelled exactly, which is sound for the properties proved here (none
depends on the floating-point rounding of an in-range parsed number).
-/

namespace SqlppPg

/-- Model of a libpq PGresult: a materialized result buffer.  `getvalue`
mirrors PQgetvalue (the textual wire representation of a cell) and
`getisnull` mirrors PQgetisnull (the per-cell null marker).  Both are total,
matching libpq, which returns an empty value for out-of-range access rather
than failing. -/
structure PGresult where
  ntuples : Nat
  nfields : Nat
  getvalue : Nat → Nat → String
  getisnull : Nat → Nat → Bool

/-- Model of PQgetlength: for text-format results, the byte length of the
cell's value, which libpq guarantees equals the length of the string
returned by PQgetvalue. -/
def PQgetlength (r : PGresult) (row col : Nat) : Nat :=
  (r.getvalue row col).length

/-- Modelled from the spec: the shared prepared-statement handle
(detail/prepared_statement_handle.h is not under src/).  Per spec section 3
it holds the raw result buffer, the current row cursor position (0-based),
the lazily computed total row count, the lazily computed field count, and a
debug-logging flag; the counts use 0 as the "not yet computed" state, as
bind_result.cpp's tests against 0 show. -/
structure Handle where
  result : PGresult
  count : Nat
  totalCount : Nat
  fields : Nat
  debug : Bool

/-- Modelled from the spec: a freshly constructed handle has row cursor 0
and both cached counts not yet computed (0). -/
def Handle.fresh (r : PGresult) (dbg : Bool) : Handle :=
  ⟨r, 0, 0, 0, dbg⟩

/-- The trailing field-count caching step of next_impl:
`if (_handle->fields == 0U) { _handle->fields = PQnfields(_handle->result); }`. -/
def updateFields (h : Handle) : Handle :=
  if h.fields = 0 then { h with fields := h.result.nfields } else h

/-- Debug trace emitted by an operation when the handle's debug flag is set
(the cerr output in bind_result.cpp). -/
def debugTrace (h : Handle) (msg : String) : List String :=
  if h.debug then [msg] else []

/-- bind_result_t::next_impl.  Returns the boolean result, the updated
handle state, and the emitted debug trace.  Faithful to the source: when
totalCount is 0 it is (re)computed from PQntuples and the function falls
through to the field-count caching and returns true; otherwise the cursor
advances while `count < totalCount - 1`, and returns false (with no state
change) once it cannot. -/
def next_impl (h : Handle) : Bool × Handle × List String :=
  let tr := debugTrace h "PostgreSQL debug: accessing next row of handle"
  if h.totalCount = 0 then
    (true, updateFields { h with totalCount := h.result.ntuples }, tr)
  else if h.count < h.totalCount - 1 then
    (true, updateFields { h with count := h.count + 1 }, tr)
  else
    (false, h, tr)

/-- The exception message thrown by the bounds check of every decode
operation. -/
def outOfRangeMsg : String := "PostgreSQL error: index out of range"

/-! Models of `std::istringstream` extraction (`operator>>`) as used by the
decode operations, per C++11 formatted-input semantics. -/

/-- Characters skipped by formatted input with the default locale. -/
def isStreamWs (c : Char) : Bool :=
  c = ' ' || c = '\t' || c = '\n' || c = '\r' || c = '\x0b' || c = '\x0c'

/-- Value of a digit string, most significant first. -/
def digitsVal (ds : List Char) : Nat :=
  ds.foldl (fun a c => a * 10 + (c.toNat - 48)) 0

/-- Largest int64_t value. -/
def int64Max : Int := 9223372036854775807

/-- Smallest int64_t value. -/
def int64Min : Int := -9223372036854775808

/-- Sign and remaining characters of a numeric field: an optional leading
`+` or `-`. -/
def splitSign (cs : List Char) : Int × List Char :=
  match cs with
  | '-' :: rest => (-1, rest)
  | '+' :: rest => (1, rest)
  | _ => (1, cs)

/-- Mathematical value of the longest numeric field readable as a signed
decimal integer after skipping whitespace; `none` when the field contains no
digit. -/
def parseIntField (s : String) : Option Int :=
  let sc := splitSign (s.data.dropWhile isStreamWs)
  let ds := sc.2.takeWhile Char.isDigit
  if ds.isEmpty then none else some (sc.1 * (digitsVal ds : Nat))

/-- Model of `istringstream >> (int64_t&)` (C++11 num_get, default locale):
skip whitespace, read an optional sign and a run of decimal digits.  With no
digits the extraction fails and stores 0; a value outside the int64_t range
fails and stores the nearest representable bound; otherwise it succeeds with
the value (trailing non-digit characters are simply left unread).  Returns
(stored value, success flag). -/
def extractInt64 (s : String) : Int × Bool :=
  match parseIntField s with
  | none => (0, false)
  | some n =>
    if n > int64Max then (int64Max, false)
    else if n < int64Min then (int64Min, false)
    else (n, true)

/-- Exponent part of a decimal floating field: optional sign and digits,
0 when absent. -/
def readExp (cs : List Char) : Int :=
  match cs with
  | '-' :: rest => -((digitsVal (rest.takeWhile Char.isDigit) : Nat) : Int)
  | '+' :: rest => ((digitsVal (rest.takeWhile Char.isDigit) : Nat) : Int)
  | _ => ((digitsVal (cs.takeWhile Char.isDigit) : Nat) : Int)

/-- Largest finite IEEE-754 binary64 (double) value, as an exact natural
number: DBL_MAX = (2^53 - 1) * 2^971. -/
def dblMaxNat : Nat := (2 ^ 53 - 1) * 2 ^ 971

/-- DBL_MAX as an exact rational. -/
def dblMax : Rat := (dblMaxNat : Rat)

/-- Decimal significand and exponent of the longest decimal floating field
after skipping whitespace (optional sign, integer digits, optional
fractional part, optional decimal exponent): returns (m, e) such that the
field's exact value is m * 10^e, with m carrying the sign; `none` when there
is no digit at all.  Hexadecimal, infinity and NaN forms are not exercised
by PostgreSQL's text wire format and are out of scope. -/
def parseDoubleField (s : String) : Option (Int × Int) :=
  let sc := splitSign (s.data.dropWhile isStreamWs)
  let ip := sc.2.takeWhile Char.isDigit
  let cs1 := sc.2.dropWhile Char.isDigit
  let fpRest : List Char × List Char :=
    match cs1 with
    | '.' :: rest => (rest.takeWhile Char.isDigit, rest.dropWhile Char.isDigit)
    | _ => ([], cs1)
  if ip.isEmpty ∧ fpRest.1.isEmpty then none
  else
    let m : Int :=
      sc.1 * ((digitsVal ip * 10 ^ fpRest.1.length + digitsVal fpRest.1 : Nat) : Int)
    let expo : Int :=
      (match fpRest.2 with
       | 'e' :: rest => readExp rest
       | 'E' :: rest => readExp rest
       | _ => 0) - fpRest.1.length
    some (m, expo)

/-- Whether m * 10^e exceeds the natural number b, decided in integer
arithmetic (for e < 0 both sides are scaled by 10^(-e)). -/
def decGtNat (m e : Int) (b : Nat) : Bool :=
  if m ≤ 0 then false
  else if 0 ≤ e then b < m.toNat * 10 ^ e.toNat
  else b * 10 ^ (-e).toNat < m.toNat

/-- Exact rational value m * 10^e of a parsed decimal field. -/
def decValue (m e : Int) : Rat := (m : Rat) * (10 : Rat) ^ e

/-- Model of `istringstream >> (double&)` (C++11 num_get, default locale):
with no digits at all the extraction fails and stores 0; a field whose value
lies outside the range of representable doubles (beyond DBL_MAX in
magnitude) fails and stores the most positive (resp. most negative)
representable value; otherwise it succeeds.  A successfully extracted value
is kept as an exact rational: no claim proved here depends on the rounding
of an in-range value. -/
def extractDouble (s : String) : Rat × Bool :=
  match parseDoubleField s with
  | none => (0, false)
  | some me =>
    if decGtNat me.1 me.2 dblMaxNat then (dblMax, false)
    else if decGtNat (-me.1) me.2 dblMaxNat then (-dblMax, false)
    else (decValue me.1 me.2, true)

/-- Model of `istringstream >> (signed char&)`: skip whitespace, then read a
single character into the target; on empty input the extraction fails and
the target keeps its previous value `prev`.  The stored value is the
character's code (cells decoded here carry single-byte values). -/
def extractSChar (s : String) (prev : Int) : Int × Bool :=
  match s.data.dropWhile isStreamWs with
  | c :: _ => ((c.toNat : Int), true)
  | [] => (prev, false)

/-! The four decode operations of bind_result.cpp.  Each returns the decoded
outputs (or the thrown exception message) paired with the emitted debug
trace.  The handle is not part of the return value because the source
functions never write to it: they only read it and write through the
caller's out-pointers. -/

/-- bind_result_t::_bind_boolean_result.  `prev` is the prior content of the
caller's out-parameter, which the single-character extraction leaves in
place when the cell's text is empty. -/
def bind_boolean_result (h : Handle) (index : Nat) (prev : Int) :
    Except String (Int × Bool) × List String :=
  let tr := debugTrace h "PostgreSQL debug: binding boolean result"
  if index > h.fields then (.error outOfRangeMsg, tr)
  else
    ((.ok ((extractSChar (h.result.getvalue h.count index) prev).1,
           h.result.getisnull h.count index)), tr)

/-- bind_result_t::_bind_floating_point_result. -/
def bind_floating_point_result (h : Handle) (index : Nat) :
    Except String (Rat × Bool) × List String :=
  let tr := debugTrace h "PostgreSQL debug: binding floating_point result"
  if index > h.fields then (.error outOfRangeMsg, tr)
  else
    ((.ok ((extractDouble (h.result.getvalue h.count index)).1,
           h.result.getisnull h.count index)), tr)

/-- bind_result_t::_bind_integral_result. -/
def bind_integral_result (h : Handle) (index : Nat) :
    Except String (Int × Bool) × List String :=
  let tr := debugTrace h "PostgreSQL debug: binding integral result"
  if index > h.fields then (.error outOfRangeMsg, tr)
  else
    ((.ok ((extractInt64 (h.result.getvalue h.count index)).1,
           h.result.getisnull h.count index)), tr)

/-- bind_result_t::_bind_text_result.  Note the source sets only the value
pointer and the length; there is no null-flag out-parameter. -/
def bind_text_result (h : Handle) (index : Nat) :
    Except String (String × Nat) × List String :=
  let tr := debugTrace h "PostgreSQL debug: binding text result"
  if index > h.fields then (.error outOfRangeMsg, tr)
  else
    ((.ok (h.result.getvalue h.count index, PQgetlength h.result h.count index)), tr)

/-- Iterated advance: the handle after `n` calls to next_impl. -/
def advanceN (h : Handle) : Nat → Handle
  | 0 => h
  | n + 1 => (next_impl (advanceN h n)).2.1

/-- Result of the (n+1)-th advance call (0-indexed: `advanceResult h 0` is
the first call's boolean). -/
def advanceResult (h : Handle) (n : Nat) : Bool :=
  (next_impl (advanceN h n)).1

/-- A cursor operation: one advance or one decode call.  Decode operations
carry the column index (and, for the boolean decode, the out-parameter's
prior content); per the source they never modify the handle. -/
inductive CursorOp where
  | advance
  | decodeBoolean (index : Nat) (prev : Int)
  | decodeFloat (index : Nat)
  | decodeIntegral (index : Nat)
  | decodeText (index : Nat)
  deriving DecidableEq

/-- Effect of one cursor operation on the handle: next_impl updates it, a
decode call leaves it unchanged (the decode functions in bind_result.cpp
only read the handle and write through out-pointers). -/
def runOp (h : Handle) : CursorOp → Handle
  | .advance => (next_impl h).2.1
  | .decodeBoolean _ _ => h
  | .decodeFloat _ => h
  | .decodeIntegral _ => h
  | .decodeText _ => h

/-- Handle state after a sequence of cursor operations. -/
def run (h : Handle) (ops : List CursorOp) : Handle :=
  ops.foldl runOp h

/-- Handle with its debug flag replaced. -/
def setDebug (h : Handle) (d : Bool) : Handle :=
  { h with debug := d }

/-! ## Exception taxonomy (include/sqlpp11/postgresql/exception.h) -/

/-- The exception classes declared in exception.h, one constructor per
class. -/
inductive FailureKind where
  | failure
  | broken_connection
  | sql_error
  | in_doubt_error
  | feature_not_supported
  | data_exception
  | integrity_constraint_violation
  | restrict_violation
  | not_null_violation
  | foreign_key_violation
  | unique_violation
  | check_violation
  | invalid_cursor_state
  | invalid_sql_statement_name
  | invalid_cursor_name
  | syntax_error
  | undefined_column
  | undefined_function
  | undefined_table
  | insufficient_privilege
  | insufficient_resources
  | disk_full
  | out_of_memory
  | too_many_connections
  | plpgsql_error
  | plpgsql_raise
  | plpgsql_no_data_found
  | plpgsql_too_many_rows
  deriving DecidableEq, Fintype

namespace FailureKind

/-- Immediate base class of each exception class, read off the class
declarations of exception.h (`failure` itself derives from the external
sqlpp::exception, outside this taxonomy). -/
def parent : FailureKind → Option FailureKind
  | .failure => none
  | .broken_connection => some .failure
  | .sql_error => some .failure
  | .in_doubt_error => some .failure
  | .feature_not_supported => some .sql_error
  | .data_exception => some .sql_error
  | .integrity_constraint_violation => some .sql_error
  | .restrict_violation => some .integrity_constraint_violation
  | .not_null_violation => some .integrity_constraint_violation
  | .foreign_key_violation => some .integrity_constraint_violation
  | .unique_violation => some .integrity_constraint_violation
  | .check_violation => some .integrity_constraint_violation
  | .invalid_cursor_state => some .sql_error
  | .invalid_sql_statement_name => some .sql_error
  | .invalid_cursor_name => some .sql_error
  | .syntax_error => some .sql_error
  | .undefined_column => some .syntax_error
  | .undefined_function => some .syntax_error
  | .undefined_table => some .syntax_error
  | .insufficient_privilege => some .sql_error
  | .insufficient_resources => some .sql_error
  | .disk_full => some .insufficient_resources
  | .out_of_memory => some .insufficient_resources
  | .too_many_connections => some .broken_connection
  | .plpgsql_error => some .sql_error
  | .plpgsql_raise => some .plpgsql_error
  | .plpgsql_no_data_found => some .plpgsql_error
  | .plpgsql_too_many_rows => some .plpgsql_error

/-- Chain of proper ancestors obtained by iterating `parent` (with fuel
larger than the hierarchy's depth). -/
def ancestorsAux : Nat → FailureKind → List FailureKind
  | 0, _ => []
  | fuel + 1, k =>
    match parent k with
    | none => []
    | some p => p :: ancestorsAux fuel p

/-- Proper ancestors of a class, nearest first. -/
def ancestors (k : FailureKind) : List FailureKind :=
  ancestorsAux 8 k

/-- A thrown instance of class `k` is catchable by a handler for class `a`
exactly when `a` is `k` itself or a base class of `k` (C++ catch-by-base
semantics over the single-inheritance tree). -/
def catchableAs (k a : FailureKind) : Bool :=
  k = a || (ancestors k).contains a

end FailureKind

/-- Modelled from the spec: an exception object carrying its class and
message.  The constructor bodies that store the message (exception.cpp and
the sqlpp::exception base class) are not under src/; per the spec, every
kind constructed with message `m` returns `m` from its message accessor. -/
structure FailureObject where
  kind : FailureKind
  message : String

/-- Modelled from the spec: constructing an exception of class `k` with
message `m`. -/
def construct (k : FailureKind) (m : String) : FailureObject :=
  ⟨k, m⟩

/-- Modelled from the spec: the message accessor (what()). -/
def FailureObject.what (o : FailureObject) : String :=
  o.message

/-- The ancestor chain of each exception class as the spec's section 4.1
tree draws it (the spec side of the refinement, to be compared with
`FailureKind.ancestors`, which is read off the source's class
declarations). -/
def specAncestors : FailureKind → List FailureKind
  | .failure => []
  | .broken_connection => [.failure]
  | .sql_error => [.failure]
  | .in_doubt_error => [.failure]
  | .too_many_connections => [.broken_connection, .failure]
  | .feature_not_supported => [.sql_error, .failure]
  | .data_exception => [.sql_error, .failure]
  | .integrity_constraint_violation => [.sql_error, .failure]
  | .restrict_violation => [.integrity_constraint_violation, .sql_error, .failure]
  | .not_null_violation => [.integrity_constraint_violation, .sql_error, .failure]
  | .foreign_key_violation => [.integrity_constraint_violation, .sql_error, .failure]
  | .unique_violation => [.integrity_constraint_violation, .sql_error, .failure]
  | .check_violation => [.integrity_constraint_violation, .sql_error, .failure]
  | .invalid_cursor_state => [.sql_error, .failure]
  | .invalid_sql_statement_name => [.sql_error, .failure]
  | .invalid_cursor_name => [.sql_error, .failure]
  | .syntax_error => [.sql_error, .failure]
  | .undefined_column => [.syntax_error, .sql_error, .failure]
  | .undefined_function => [.syntax_error, .sql_error, .failure]
  | .undefined_table => [.syntax_error, .sql_error, .failure]
  | .insufficient_privilege => [.sql_error, .failure]
  | .insufficient_resources => [.sql_error, .failure]
  | .disk_full => [.insufficient_resources, .sql_error, .failure]
  | .out_of_memory => [.insufficient_resources, .sql_error, .failure]
  | .plpgsql_error => [.sql_error, .failure]
  | .plpgsql_raise => [.plpgsql_error, .sql_error, .failure]
  | .plpgsql_no_data_found => [.plpgsql_error, .sql_error, .failure]
  | .plpgsql_too_many_rows => [.plpgsql_error, .sql_error, .failure]

/-! ## Auxiliary predicates and concrete fixtures -/

/-- Whether a decode call threw (the sqlpp::exception of the bounds
check). -/
def throwsError : Except String α → Bool
  | .error _ => true
  | .ok _ => false

/-- The is_null out-parameter of a scalar decode call, when it did not
throw. -/
def isNullOut : Except String (α × Bool) → Option Bool
  | .ok vb => some vb.2
  | .error _ => none

/-- Invariant relating the row cursor to the cached total row count that
next_impl maintains: either iteration is positioned on a real row, or
nothing has been counted yet (both the cursor and the cached total are 0). -/
def HandleInv (g : Handle) : Prop :=
  g.count < g.totalCount ∨ (g.count = 0 ∧ g.totalCount = 0)

/-- A result buffer with zero rows. -/
def emptyResult : PGresult := ⟨0, 1, fun _ _ => "", fun _ _ => true⟩

/-- A result buffer with two rows and one field. -/
def twoRowResult : PGresult := ⟨2, 1, fun _ _ => "5", fun _ _ => false⟩

/-- A handle positioned on the single row of a two-field buffer whose cells
are all null with non-numeric text, with the field count already cached. -/
def demoHandle : Handle := ⟨⟨1, 2, fun _ _ => "abc", fun _ _ => true⟩, 0, 1, 2, false⟩

/-- A handle whose single row holds, in order: the first integer beyond the
int64_t range (2^63), a decimal field beyond the double range (1e309), and
an empty cell; the field count is already cached. -/
def overflowHandle : Handle :=
  ⟨⟨1, 3,
    fun _ c => if c = 0 then "9223372036854775808" else if c = 1 then "1e309" else "",
    fun _ _ => false⟩, 0, 1, 3, false⟩

/-- A handle over a buffer whose row has a null cell at column 0 and a
present empty-string cell at column 1, with the field count already
cached. -/
def nullVsEmptyHandle : Handle :=
  ⟨⟨1, 2, fun _ _ => "", fun _ c => c == 0⟩, 0, 1, 2, false⟩

/-- A fresh handle over a one-row, three-field buffer (nothing cached
yet). -/
def lazyHandle : Handle := Handle.fresh ⟨1, 3, fun _ _ => "x", fun _ _ => false⟩ false

/-! ## Helper lemmas -/

theorem updateFields_self (r : PGresult) (c t : Nat) (d : Bool) :
    updateFields ⟨r, c, t, r.nfields, d⟩ = ⟨r, c, t, r.nfields, d⟩ := by
  unfold updateFields
  split <;> rfl

theorem updateFields_zero (r : PGresult) (c t : Nat) (d : Bool) :
    updateFields ⟨r, c, t, 0, d⟩ = ⟨r, c, t, r.nfields, d⟩ := by
  unfold updateFields
  rfl

theorem updateFields_count (h : Handle) : (updateFields h).count = h.count := by
  unfold updateFields
  split <;> rfl

theorem updateFields_totalCount (h : Handle) : (updateFields h).totalCount = h.totalCount := by
  unfold updateFields
  split <;> rfl

theorem updateFields_result (h : Handle) : (updateFields h).result = h.result := by
  unfold updateFields
  split <;> rfl

theorem next_impl_adv (r : PGresult) (c t : Nat) (d : Bool) (ht : t ≠ 0)
    (hc : c < t - 1) :
    (next_impl ⟨r, c, t, r.nfields, d⟩).1 = true ∧
    (next_impl ⟨r, c, t, r.nfields, d⟩).2.1 = ⟨r, c + 1, t, r.nfields, d⟩ := by
  unfold next_impl
  dsimp only
  rw [if_neg ht, if_pos hc]
  exact ⟨rfl, updateFields_self r (c + 1) t d⟩

theorem next_impl_stop (r : PGresult) (c t : Nat) (d : Bool) (ht : t ≠ 0)
    (hc : ¬ c < t - 1) :
    (next_impl ⟨r, c, t, r.nfields, d⟩).1 = false ∧
    (next_impl ⟨r, c, t, r.nfields, d⟩).2.1 = ⟨r, c, t, r.nfields, d⟩ := by
  unfold next_impl
  simp [ht, hc]

theorem next_impl_fresh (r : PGresult) (d : Bool) :
    (next_impl (Handle.fresh r d)).1 = true ∧
    (next_impl (Handle.fresh r d)).2.1 = ⟨r, 0, r.ntuples, r.nfields, d⟩ := by
  unfold next_impl Handle.fresh
  exact ⟨rfl, updateFields_zero r 0 r.ntuples d⟩

/-! ## Claims -/

/-- C2: every exception class constructed with message m returns m from its
message accessor, and catchability follows exactly the single-inheritance
hierarchy the spec draws in section 4.1: an instance of class k is catchable
as a exactly when a is k itself or one of the ancestors the spec's tree
assigns to k. -/
theorem exception_hierarchy_spec (k : FailureKind) (m : String) :
    (construct k m).what = m ∧
    ∀ a : FailureKind,
      FailureKind.catchableAs k a = true ↔ (a = k ∨ a ∈ specAncestors k) := by
  refine ⟨rfl, ?_⟩
  revert k
  decide

/-- C3: every decode operation raises the out-of-range error exactly when
the column index is strictly greater than the cached field count, so a call
with index equal to the field count passes the bounds check and does not
raise. -/
theorem decode_bounds_strict (h : Handle) (i : Nat) (p : Int) :
    (throwsError (bind_boolean_result h i p).1 = true ↔ h.fields < i) ∧
    (throwsError (bind_floating_point_result h i).1 = true ↔ h.fields < i) ∧
    (throwsError (bind_integral_result h i).1 = true ↔ h.fields < i) ∧
    (throwsError (bind_text_result h i).1 = true ↔ h.fields < i) ∧
    throwsError (bind_boolean_result h h.fields p).1 = false ∧
    throwsError (bind_floating_point_result h h.fields).1 = false ∧
    throwsError (bind_integral_result h h.fields).1 = false ∧
    throwsError (bind_text_result h h.fields).1 = false := by
  refine ⟨?_, ?_, ?_, ?_, ?_, ?_, ?_, ?_⟩ <;>
    simp only [bind_boolean_result, bind_floating_point_result, bind_integral_result,
      bind_text_result] <;>
    split <;>
    simp_all [throwsError]

/-- C9: the debug flag only controls trace emission: flipping it changes
neither the boolean result and handle state of next_impl nor the outputs of
any decode operation. -/
theorem debug_flag_noninterference (h : Handle) (d : Bool) (i : Nat) (p : Int) :
    (next_impl (setDebug h d)).1 = (next_impl h).1 ∧
    (next_impl (setDebug h d)).2.1 = setDebug (next_impl h).2.1 d ∧
    (bind_boolean_result (setDebug h d) i p).1 = (bind_boolean_result h i p).1 ∧
    (bind_floating_point_result (setDebug h d) i).1 = (bind_floating_point_result h i).1 ∧
    (bind_integral_result (setDebug h d) i).1 = (bind_integral_result h i).1 ∧
    (bind_text_result (setDebug h d) i).1 = (bind_text_result h i).1 := by
  refine ⟨?_, ?_, ?_, ?_, ?_, ?_⟩ <;>
    simp only [next_impl, setDebug, updateFields, bind_boolean_result,
      bind_floating_point_result, bind_integral_result, bind_text_result, PQgetlength] <;>
    split_ifs <;>
    rfl

/-- C4: for every in-bounds column index, each scalar decode reports the
underlying buffer's null marker for the current cell as is_null, whatever
the cell's text is and whether or not it parses. -/
theorem scalar_null_from_marker (h : Handle) (i : Nat) (p : Int) (hb : i ≤ h.fields) :
    isNullOut (bind_boolean_result h i p).1 = some (h.result.getisnull h.count i) ∧
    isNullOut (bind_floating_point_result h i).1 = some (h.result.getisnull h.count i) ∧
    isNullOut (bind_integral_result h i).1 = some (h.result.getisnull h.count i) := by
  have hni : ¬ i > h.fields := not_lt.mpr hb
  refine ⟨?_, ?_, ?_⟩ <;>
    simp [bind_boolean_result, bind_floating_point_result, bind_integral_result, hni,
      isNullOut]

/-- Witness for C4 at a concrete handle whose cells are null with
non-numeric text. -/
theorem scalar_null_from_marker_witness :
    isNullOut (bind_boolean_result demoHandle 1 7).1 = some true ∧
    isNullOut (bind_floating_point_result demoHandle 1).1 = some true ∧
    isNullOut (bind_integral_result demoHandle 1).1 = some true :=
  scalar_null_from_marker demoHandle 1 7 (by decide)

theorem extractInt64_failure (s : String) (hf : (extractInt64 s).2 = false) :
    (extractInt64 s).1 = 0 ∨ (extractInt64 s).1 = int64Max ∨
    (extractInt64 s).1 = int64Min := by
  unfold extractInt64 at *
  cases hp : parseIntField s with
  | none => exact Or.inl rfl
  | some n =>
    rw [hp] at hf
    dsimp only at hf ⊢
    split_ifs at hf ⊢
    · exact Or.inr (Or.inl rfl)
    · exact Or.inr (Or.inr rfl)

theorem extractDouble_failure (s : String) (hf : (extractDouble s).2 = false) :
    (extractDouble s).1 = 0 ∨ (extractDouble s).1 = dblMax ∨
    (extractDouble s).1 = -dblMax := by
  unfold extractDouble at *
  cases hp : parseDoubleField s with
  | none => exact Or.inl rfl
  | some me =>
    rw [hp] at hf
    dsimp only at hf ⊢
    split_ifs at hf ⊢
    · exact Or.inr (Or.inl rfl)
    · exact Or.inr (Or.inr rfl)

theorem extractSChar_failure (s : String) (p : Int)
    (hf : (extractSChar s p).2 = false) : (extractSChar s p).1 = p := by
  unfold extractSChar at *
  cases hm : s.data.dropWhile isStreamWs with
  | nil => rfl
  | cons c cs => rw [hm] at hf; simp at hf

/-- C5 as amended: for every in-bounds column index, scalar decoding never
raises; when stream extraction fails, the integral value stored is 0 or, on
an out-of-range numeric field, the nearest int64_t bound, the floating value
stored is 0 or, on a field beyond the double range, the most positive or
most negative representable double, and the boolean (single-character)
extraction leaves the out-parameter's prior content in place, so the null
flag is the signal of absence. -/
theorem scalar_parse_failure_swallowed (h : Handle) (i : Nat) (p : Int)
    (hb : i ≤ h.fields) :
    throwsError (bind_boolean_result h i p).1 = false ∧
    throwsError (bind_floating_point_result h i).1 = false ∧
    throwsError (bind_integral_result h i).1 = false ∧
    ((extractDouble (h.result.getvalue h.count i)).2 = false →
      (bind_floating_point_result h i).1 =
        .ok ((extractDouble (h.result.getvalue h.count i)).1,
             h.result.getisnull h.count i) ∧
      ((extractDouble (h.result.getvalue h.count i)).1 = 0 ∨
       (extractDouble (h.result.getvalue h.count i)).1 = dblMax ∨
       (extractDouble (h.result.getvalue h.count i)).1 = -dblMax)) ∧
    ((extractInt64 (h.result.getvalue h.count i)).2 = false →
      (bind_integral_result h i).1 =
        .ok ((extractInt64 (h.result.getvalue h.count i)).1,
             h.result.getisnull h.count i) ∧
      ((extractInt64 (h.result.getvalue h.count i)).1 = 0 ∨
       (extractInt64 (h.result.getvalue h.count i)).1 = int64Max ∨
       (extractInt64 (h.result.getvalue h.count i)).1 = int64Min)) ∧
    ((extractSChar (h.result.getvalue h.count i) p).2 = false →
      (bind_boolean_result h i p).1 = .ok (p, h.result.getisnull h.count i)) := by
  have hni : ¬ i > h.fields := not_lt.mpr hb
  refine ⟨?_, ?_, ?_, ?_, ?_, ?_⟩
  · simp [bind_boolean_result, hni, throwsError]
  · simp [bind_floating_point_result, hni, throwsError]
  · simp [bind_integral_result, hni, throwsError]
  · intro hf
    refine ⟨by simp [bind_floating_point_result, hni], extractDouble_failure _ hf⟩
  · intro hf
    refine ⟨by simp [bind_integral_result, hni], extractInt64_failure _ hf⟩
  · intro hf
    simp [bind_boolean_result, hni, extractSChar_failure _ _ hf]

/-- Witness for C5 (amended) at a concrete handle whose cell text "abc"
fails both numeric extractions. -/
theorem scalar_parse_failure_swallowed_witness :
    throwsError (bind_integral_result demoHandle 0).1 = false ∧
    (bind_floating_point_result demoHandle 0).1 = Except.ok (0, true) :=
  ⟨(scalar_parse_failure_swallowed demoHandle 0 7 (by decide)).2.2.1,
   ((scalar_parse_failure_swallowed demoHandle 0 7 (by decide)).2.2.2.1 (by decide)).1⟩

/-- Counterexample to C5 as stated, one in-bounds decode per clause of the
amendment: the cell text 2^63 fails extraction as int64_t yet stores the
clamped bound 2^63 - 1, the cell text 1e309 fails extraction as double yet
stores DBL_MAX, and the boolean decode of an empty cell fails its
single-character extraction yet leaves the out-parameter's prior content 5
in place — in all three cases the stored value is not the type's
default/zero value. -/
theorem parse_failure_default_counterexample :
    ((extractInt64 (overflowHandle.result.getvalue overflowHandle.count 0)).2 = false ∧
     (bind_integral_result overflowHandle 0).1 = .ok (9223372036854775807, false) ∧
     (9223372036854775807 : Int) ≠ 0) ∧
    ((extractDouble (overflowHandle.result.getvalue overflowHandle.count 1)).2 = false ∧
     (bind_floating_point_result overflowHandle 1).1 = .ok (dblMax, false) ∧
     dblMax ≠ 0) ∧
    ((extractSChar (overflowHandle.result.getvalue overflowHandle.count 2) 5).2 = false ∧
     (bind_boolean_result overflowHandle 2 5).1 = .ok (5, false) ∧
     (5 : Int) ≠ 0) := by
  have h1 : parseDoubleField "1e309" = some (1, 309) := by decide
  have h0 : Int.toNat 309 = 309 := rfl
  have h2 : decGtNat 1 309 dblMaxNat = true := by norm_num [decGtNat, dblMaxNat, h0]
  have h3 : extractDouble "1e309" = (dblMax, false) := by simp [extractDouble, h1, h2]
  refine ⟨⟨rfl, rfl, by decide⟩, ⟨?_, ?_, by norm_num [dblMax, dblMaxNat]⟩,
    ⟨rfl, rfl, by decide⟩⟩
  · show (extractDouble "1e309").2 = false
    rw [h3]
  · simp [bind_floating_point_result, overflowHandle, h3]

/-- C7 as amended: for every in-bounds column index, the text decode returns
the cell's text from the underlying buffer together with its byte length —
and nothing else: it has no null-flag output, so nullness is not observable
through this operation and must be read from the buffer's own null
marker. -/
theorem text_decode_view (h : Handle) (i : Nat) (hb : i ≤ h.fields) :
    (bind_text_result h i).1 =
      .ok (h.result.getvalue h.count i, (h.result.getvalue h.count i).length) := by
  have hni : ¬ i > h.fields := not_lt.mpr hb
  simp [bind_text_result, PQgetlength, hni]

/-- Witness for C7 (amended) at a concrete handle. -/
theorem text_decode_view_witness :
    (bind_text_result demoHandle 0).1 = Except.ok ("abc", 3) :=
  text_decode_view demoHandle 0 (by decide)

/-- Counterexample to C7 as stated: a null cell and a present empty-string
cell produce identical text-decode outputs (empty view, zero length), even
though the buffer's null markers differ — the operation exposes no separate
null flag, so the two are not distinguishable through it. -/
theorem text_null_indistinguishable_counterexample :
    (bind_text_result nullVsEmptyHandle 0).1 = Except.ok ("", 0) ∧
    (bind_text_result nullVsEmptyHandle 1).1 = Except.ok ("", 0) ∧
    nullVsEmptyHandle.result.getisnull nullVsEmptyHandle.count 0 = true ∧
    nullVsEmptyHandle.result.getisnull nullVsEmptyHandle.count 1 = false :=
  ⟨rfl, rfl, rfl, rfl⟩

/-- C6 as amended: the field count is computed and cached by advance calls —
any next_impl call that returns true sets it from the buffer when it is
still unset — while decode calls never compute or modify it (they only read
it for the bounds check). -/
theorem fields_cached_by_advance (h : Handle) (i : Nat) (p : Int)
    (hs : (next_impl h).1 = true) :
    (next_impl h).2.1.fields = (if h.fields = 0 then h.result.nfields else h.fields) ∧
    runOp h (CursorOp.decodeBoolean i p) = h ∧
    runOp h (CursorOp.decodeFloat i) = h ∧
    runOp h (CursorOp.decodeIntegral i) = h ∧
    runOp h (CursorOp.decodeText i) = h := by
  refine ⟨?_, rfl, rfl, rfl, rfl⟩
  by_cases h1 : h.totalCount = 0
  · unfold next_impl updateFields
    dsimp only
    rw [if_pos h1]
    dsimp only
    split_ifs <;> rfl
  · by_cases h2 : h.count < h.totalCount - 1
    · unfold next_impl updateFields
      dsimp only
      rw [if_neg h1, if_pos h2]
      dsimp only
      split_ifs <;> rfl
    · exfalso
      unfold next_impl at hs
      dsimp only at hs
      rw [if_neg h1, if_neg h2] at hs
      simp at hs

/-- Witness for C6 (amended): a successful advance on a fresh handle caches
the field count 3, and a decode leaves the handle untouched. -/
theorem fields_cached_by_advance_witness :
    (next_impl lazyHandle).2.1.fields = 3 ∧
    runOp lazyHandle (CursorOp.decodeIntegral 0) = lazyHandle :=
  ⟨(fields_cached_by_advance lazyHandle 0 0 rfl).1,
   (fields_cached_by_advance lazyHandle 0 0 rfl).2.2.2.1⟩

/-- Counterexample to C6 as stated: on a fresh handle the first advance call
does compute the field count (0 to 3), while a decode call computes nothing
(the handle is unchanged, and a decode at index 1 still throws because the
cached count is 0). -/
theorem fields_lazy_on_decode_counterexample :
    lazyHandle.fields = 0 ∧
    (next_impl lazyHandle).2.1.fields = 3 ∧
    runOp lazyHandle (CursorOp.decodeIntegral 0) = lazyHandle ∧
    throwsError (bind_integral_result lazyHandle 1).1 = true :=
  ⟨rfl, rfl, rfl, rfl⟩

theorem advanceN_fresh (r : PGresult) (dbg : Bool) (hN : 1 ≤ r.ntuples) (k : Nat) :
    advanceN (Handle.fresh r dbg) (k + 1) =
      ⟨r, min k (r.ntuples - 1), r.ntuples, r.nfields, dbg⟩ := by
  induction k with
  | zero =>
    show (next_impl (Handle.fresh r dbg)).2.1 = _
    rw [(next_impl_fresh r dbg).2]
    have h0 : min 0 (r.ntuples - 1) = 0 := by omega
    rw [h0]
  | succ m ih =>
    show (next_impl (advanceN (Handle.fresh r dbg) (m + 1))).2.1 = _
    rw [ih]
    by_cases hc : min m (r.ntuples - 1) < r.ntuples - 1
    · rw [(next_impl_adv r _ _ dbg (by omega) hc).2]
      have h1 : min m (r.ntuples - 1) + 1 = min (m + 1) (r.ntuples - 1) := by omega
      rw [h1]
    · rw [(next_impl_stop r _ _ dbg (by omega) hc).2]
      have h1 : min m (r.ntuples - 1) = min (m + 1) (r.ntuples - 1) := by omega
      rw [h1]

/-- C1 as amended: on a result set with N >= 1 rows, the first N advance
calls return true, every later call returns false, and a false-returning
call leaves the handle state unchanged (idempotent exhaustion).  The N = 0
case behaves differently, see the counterexample. -/
theorem advance_exhaustion (r : PGresult) (dbg : Bool) (hN : 1 ≤ r.ntuples) (k : Nat) :
    (k < r.ntuples → advanceResult (Handle.fresh r dbg) k = true) ∧
    (r.ntuples ≤ k → advanceResult (Handle.fresh r dbg) k = false ∧
      advanceN (Handle.fresh r dbg) (k + 1) = advanceN (Handle.fresh r dbg) k) := by
  constructor
  · intro hk
    cases k with
    | zero => exact (next_impl_fresh r dbg).1
    | succ m =>
      unfold advanceResult
      rw [advanceN_fresh r dbg hN m]
      exact (next_impl_adv r _ _ dbg (by omega) (by omega)).1
  · intro hk
    cases k with
    | zero => exact absurd (hN.trans hk) (by omega)
    | succ m =>
      constructor
      · unfold advanceResult
        rw [advanceN_fresh r dbg hN m]
        exact (next_impl_stop r _ _ dbg (by omega) (by omega)).1
      · show (next_impl (advanceN (Handle.fresh r dbg) (m + 1))).2.1 = _
        rw [advanceN_fresh r dbg hN m]
        exact (next_impl_stop r _ _ dbg (by omega) (by omega)).2

/-- Witness for C1 (amended) on a concrete two-row result set: true, true,
then false with no state change. -/
theorem advance_exhaustion_witness :
    advanceResult (Handle.fresh twoRowResult false) 0 = true ∧
    advanceResult (Handle.fresh twoRowResult false) 1 = true ∧
    advanceResult (Handle.fresh twoRowResult false) 2 = false ∧
    advanceN (Handle.fresh twoRowResult false) 3 =
      advanceN (Handle.fresh twoRowResult false) 2 :=
  ⟨(advance_exhaustion twoRowResult false (by decide) 0).1 (by decide),
   (advance_exhaustion twoRowResult false (by decide) 1).1 (by decide),
   ((advance_exhaustion twoRowResult false (by decide) 2).2 (by decide)).1,
   ((advance_exhaustion twoRowResult false (by decide) 2).2 (by decide)).2⟩

/-- Counterexample to C1 as stated: on a zero-row result set (N = 0) the
claim requires the first -- the (N+1)-th -- advance call to return false,
but the code returns true on this and every later call: 0 doubles as the
not-yet-computed marker for totalCount, so the recompute branch is taken
every time. -/
theorem advance_exhaustion_counterexample :
    emptyResult.ntuples = 0 ∧
    advanceResult (Handle.fresh emptyResult false) 0 = true ∧
    advanceResult (Handle.fresh emptyResult false) 1 = true :=
  ⟨rfl, rfl, rfl⟩

theorem advanceN_zero_rows (r : PGresult) (dbg : Bool) (h0 : r.ntuples = 0) (k : Nat) :
    advanceN (Handle.fresh r dbg) (k + 1) = ⟨r, 0, 0, r.nfields, dbg⟩ := by
  induction k with
  | zero =>
    show (next_impl (Handle.fresh r dbg)).2.1 = _
    rw [(next_impl_fresh r dbg).2, h0]
  | succ m ih =>
    show (next_impl (advanceN (Handle.fresh r dbg) (m + 1))).2.1 = _
    rw [ih]
    unfold next_impl
    dsimp only
    rw [if_pos rfl]
    show updateFields ⟨r, 0, r.ntuples, r.nfields, dbg⟩ = _
    rw [h0]
    exact updateFields_self r 0 0 dbg

/-- C10: on a zero-row result set every advance call returns true and the
row cursor stays at 0: the cached total row count uses 0 both for "not yet
computed" and for an actual count of zero, so the recompute branch is
retaken on every call and the exhaustion branch is unreachable. -/
theorem advance_zero_rows (r : PGresult) (dbg : Bool) (h0 : r.ntuples = 0) (k : Nat) :
    advanceResult (Handle.fresh r dbg) k = true ∧
    (advanceN (Handle.fresh r dbg) k).count = 0 := by
  cases k with
  | zero => exact ⟨(next_impl_fresh r dbg).1, rfl⟩
  | succ m =>
    constructor
    · unfold advanceResult
      rw [advanceN_zero_rows r dbg h0 m]
      rfl
    · show (advanceN (Handle.fresh r dbg) (m + 1)).count = 0
      rw [advanceN_zero_rows r dbg h0 m]

/-- Witness for C10 on a concrete zero-row result set. -/
theorem advance_zero_rows_witness :
    advanceResult (Handle.fresh emptyResult false) 3 = true ∧
    (advanceN (Handle.fresh emptyResult false) 3).count = 0 :=
  advance_zero_rows emptyResult false rfl 3

theorem updateFields_fixed (h : Handle) (hf : h.fields ≠ 0) : updateFields h = h := by
  unfold updateFields
  rw [if_neg hf]

theorem runOp_count_lt (g : Handle) (op : CursorOp) (hg : g.count < g.totalCount) :
    (runOp g op).count < (runOp g op).totalCount := by
  cases op with
  | advance =>
    show (next_impl g).2.1.count < (next_impl g).2.1.totalCount
    unfold next_impl
    dsimp only
    rw [if_neg (show ¬ g.totalCount = 0 by omega)]
    by_cases h2 : g.count < g.totalCount - 1
    · rw [if_pos h2]
      show (updateFields { g with count := g.count + 1 }).count <
        (updateFields { g with count := g.count + 1 }).totalCount
      rw [updateFields_count, updateFields_totalCount]
      show g.count + 1 < g.totalCount
      omega
    · rw [if_neg h2]
      exact hg
  | decodeBoolean i p => exact hg
  | decodeFloat i => exact hg
  | decodeIntegral i => exact hg
  | decodeText i => exact hg

theorem run_count_lt (g : Handle) (ops : List CursorOp) (hg : g.count < g.totalCount) :
    (run g ops).count < (run g ops).totalCount := by
  induction ops generalizing g with
  | nil => exact hg
  | cons op rest ih =>
    show (run (runOp g op) rest).count < (run (runOp g op) rest).totalCount
    exact ih (runOp g op) (runOp_count_lt g op hg)

theorem next_impl_start (g : Handle) (hc : g.count = 0) (ht : g.totalCount = 0)
    (hn : 1 ≤ g.result.ntuples) :
    (next_impl g).2.1.count < (next_impl g).2.1.totalCount := by
  unfold next_impl
  dsimp only
  rw [if_pos ht]
  show (updateFields { g with totalCount := g.result.ntuples }).count <
    (updateFields { g with totalCount := g.result.ntuples }).totalCount
  rw [updateFields_count, updateFields_totalCount]
  show g.count < g.result.ntuples
  omega

theorem run_started (g : Handle) (ops : List CursorOp)
    (hg : (g.count = 0 ∧ g.totalCount = 0 ∧ 1 ≤ g.result.ntuples) ∨
          g.count < g.totalCount)
    (hmem : CursorOp.advance ∈ ops) :
    (run g ops).count < (run g ops).totalCount := by
  induction ops generalizing g with
  | nil => cases hmem
  | cons op rest ih =>
    show (run (runOp g op) rest).count < (run (runOp g op) rest).totalCount
    cases op with
    | advance =>
      have hlt : (runOp g .advance).count < (runOp g .advance).totalCount := by
        rcases hg with ⟨hc, ht, hn⟩ | hlt
        · exact next_impl_start g hc ht hn
        · exact runOp_count_lt g _ hlt
      exact run_count_lt _ rest hlt
    | decodeBoolean i p =>
      refine ih g hg ?_
      rcases List.mem_cons.mp hmem with h | h
      · exact CursorOp.noConfusion h
      · exact h
    | decodeFloat i =>
      refine ih g hg ?_
      rcases List.mem_cons.mp hmem with h | h
      · exact CursorOp.noConfusion h
      · exact h
    | decodeIntegral i =>
      refine ih g hg ?_
      rcases List.mem_cons.mp hmem with h | h
      · exact CursorOp.noConfusion h
      · exact h
    | decodeText i =>
      refine ih g hg ?_
      rcases List.mem_cons.mp hmem with h | h
      · exact CursorOp.noConfusion h
      · exact h

theorem runOp_fields (g : Handle) (op : CursorOp) (hf : g.fields ≠ 0) :
    (runOp g op).fields = g.fields := by
  cases op with
  | advance =>
    show (next_impl g).2.1.fields = g.fields
    unfold next_impl
    dsimp only
    split_ifs with h1 h2
    · show (updateFields { g with totalCount := g.result.ntuples }).fields = g.fields
      rw [updateFields_fixed { g with totalCount := g.result.ntuples } hf]
    · show (updateFields { g with count := g.count + 1 }).fields = g.fields
      rw [updateFields_fixed { g with count := g.count + 1 } hf]
    · rfl
  | decodeBoolean i p => rfl
  | decodeFloat i => rfl
  | decodeIntegral i => rfl
  | decodeText i => rfl

theorem run_fields (g : Handle) (ops : List CursorOp) (hf : g.fields ≠ 0) :
    (run g ops).fields = g.fields := by
  induction ops generalizing g with
  | nil => rfl
  | cons op rest ih =>
    have h2 : (runOp g op).fields = g.fields := runOp_fields g op hf
    show (run (runOp g op) rest).fields = g.fields
    rw [ih (runOp g op) (by rw [h2]; exact hf), h2]

/-- C8 as amended: starting from a fresh handle over a result set with at
least one row, after any operation sequence containing an advance the row
cursor lies in the half-open interval from 0 to the cached total row count;
and the field count, once nonzero, is never changed by any further operation
sequence.  (With zero rows the interval is empty and the claim fails, see
the counterexample.) -/
theorem cursor_invariants (r : PGresult) (dbg : Bool) (ops : List CursorOp)
    (hN : 1 ≤ r.ntuples) (hmem : CursorOp.advance ∈ ops) :
    (run (Handle.fresh r dbg) ops).count < (run (Handle.fresh r dbg) ops).totalCount ∧
    ∀ (g : Handle) (more : List CursorOp), g.fields ≠ 0 →
      (run g more).fields = g.fields :=
  ⟨run_started _ _ (Or.inl ⟨rfl, rfl, hN⟩) hmem,
   fun g more hf => run_fields g more hf⟩

/-- Witness for C8 (amended) on a concrete two-row result set. -/
theorem cursor_invariants_witness :
    (run (Handle.fresh twoRowResult false) [CursorOp.advance]).count <
      (run (Handle.fresh twoRowResult false) [CursorOp.advance]).totalCount ∧
    (run demoHandle [CursorOp.advance, CursorOp.decodeText 0]).fields =
      demoHandle.fields :=
  ⟨(cursor_invariants twoRowResult false [CursorOp.advance] (by decide)
      (List.mem_singleton.mpr rfl)).1,
   (cursor_invariants twoRowResult false [CursorOp.advance] (by decide)
      (List.mem_singleton.mpr rfl)).2 demoHandle
      [CursorOp.advance, CursorOp.decodeText 0] (by decide)⟩

/-- Counterexample to C8 as stated: on a zero-row result set, after one
advance call (which returns true, so iteration has started) the row cursor
is 0 and the cached total row count is 0 as well, so the cursor does not lie
in the half-open interval from 0 to totalCount — that interval is empty. -/
theorem cursor_range_counterexample :
    advanceResult (Handle.fresh emptyResult false) 0 = true ∧
    ¬ ((run (Handle.fresh emptyResult false) [CursorOp.advance]).count <
       (run (Handle.fresh emptyResult false) [CursorOp.advance]).totalCount) :=
  ⟨rfl, by decide⟩

end SqlppPg
